import Mathlib

/-!
Verification of the retrieval pipeline of the rag-api repository.

Shallow embedding of:
- `src/core/rag/self_query.py` (`SelfQuery`): keyword-table based date-range
  extraction and query rewriting;
- `src/core/rag/retriever.py` (`VectorRetriever`): filter construction,
  per-collection search sweep, top-k retrieval with score merge, reranking;
- `src/core/rag/query_expanison.py` (`QueryExpansion`): post-processing of the
  model response (split on separator, strip, drop empties).

External collaborators (embedding model, Qdrant store, language model, the
metadata extractor and query expander as seen from the orchestrator) are
modelled as oracles returning `Except`, so that "raises an exception" is
`Except.error` and the `try/except` blocks of the Python code become explicit
catches.  Machine floats (scores) are modelled as `Int`: the claims under
study only concern ordering and stability, never float arithmetic.
-/

/-! ## Data model -/

/-- A search hit returned by the vector store: a score and a payload of
string key/value pairs (`{score, payload: {content, ...}}`). -/
structure SearchHit where
  score : Int
  payload : List (String × String)
deriving DecidableEq, Repr

/-- One equality condition of a Qdrant filter (`models.FieldCondition` with a
`MatchValue`). -/
structure FieldCondition where
  key : String
  matchValue : String
deriving DecidableEq, Repr

/-- A Qdrant filter: a conjunction of equality conditions
(`models.Filter(must=...)`). -/
structure QdrantFilter where
  must : List FieldCondition
deriving DecidableEq, Repr

/-- A calendar date as `datetime` exposes it to this code: year, month, day,
and `weekday()` (0 = Monday). -/
structure Date where
  year : Nat
  month : Nat
  day : Nat
  weekday : Nat
deriving DecidableEq, Repr

/-- The date environment: `datetime.now()` and subtraction of a
`timedelta(days=n)` from it.  Calendar arithmetic itself is outside the
program under study, so it is a parameter. -/
structure DateEnv where
  today : Date
  subDays : Nat → Date

/-- `{start_date, end_date}` as returned by `SelfQuery._extract_date_range`. -/
structure DateRange where
  startDate : String
  endDate : String
deriving DecidableEq, Repr

/-- The `{modified_query, date_range}` record returned by
`SelfQuery.extract_metadata`. -/
structure Metadata where
  modifiedQuery : String
  dateRange : Option DateRange
deriving DecidableEq, Repr

/-! ## SelfQuery (src/core/rag/self_query.py) -/

/-- The value side of one `DATE_RANGE_KEYWORDS` entry: either a `{"days": n}`
lookback or a `{"start": anchor}` period anchor. -/
inductive RangeInfo where
  | days (n : Nat)
  | start (anchor : String)
deriving DecidableEq, Repr

/-- `SelfQuery.DATE_RANGE_KEYWORDS`, in the dict's insertion order (Python
dicts iterate in insertion order, so this order is the scan order). -/
def DATE_RANGE_KEYWORDS : List (String × RangeInfo) :=
  [("recent", .days 7),
   ("latest", .days 7),
   ("current", .days 7),
   ("today", .days 1),
   ("yesterday", .days 1),
   ("last week", .days 7),
   ("this week", .start "current_week"),
   ("past week", .days 7),
   ("last month", .days 30),
   ("this month", .start "current_month"),
   ("past month", .days 30),
   ("month_to_date", .start "current_month"),
   ("last quarter", .days 90),
   ("this quarter", .start "current_quarter"),
   ("past quarter", .days 90),
   ("quarter_to_date", .start "current_quarter"),
   ("last year", .days 365),
   ("this year", .start "current_year"),
   ("past year", .days 365),
   ("year_to_date", .start "current_year"),
   ("ytd", .start "current_year"),
   ("last 6 months", .days 180),
   ("last 3 months", .days 90),
   ("last 2 years", .days 730),
   ("last 5 years", .days 1825)]

/-- Python's `str.lower()` (character-wise lowering). -/
def strToLower (s : String) : String :=
  ⟨s.data.map Char.toLower⟩

/-- Python's substring test `needle in hay`. -/
def containsSub (hay needle : String) : Bool :=
  (List.range (hay.data.length + 1)).any
    (fun i => needle.data.isPrefixOf (hay.data.drop i))

/-- Zero-padded two-digit formatting, as in `%m`, `%d` and `:02d`. -/
def pad2 (n : Nat) : String :=
  if n < 10 then "0" ++ toString n else toString n

/-- `strftime("%Y-%m-%d")`. -/
def strftimeYmd (d : Date) : String :=
  toString d.year ++ "-" ++ pad2 d.month ++ "-" ++ pad2 d.day

/-- The body of one iteration of the keyword loop in
`SelfQuery._extract_date_range`: compute the date range dictated by a matched
entry's `range_info`.  `none` models the fall-through when a `start` anchor is
not one of the four recognized values (the loop then just continues). -/
def computeRange (env : DateEnv) (info : RangeInfo) : Option DateRange :=
  match info with
  | .days n => some ⟨strftimeYmd (env.subDays n), strftimeYmd env.today⟩
  | .start anchor =>
    if anchor = "current_year" then
      some ⟨toString env.today.year ++ "-01-01", strftimeYmd env.today⟩
    else if anchor = "current_month" then
      some ⟨toString env.today.year ++ "-" ++ pad2 env.today.month ++ "-01",
            strftimeYmd env.today⟩
    else if anchor = "current_quarter" then
      some ⟨toString env.today.year ++ "-"
              ++ pad2 (((env.today.month - 1) / 3) * 3 + 1) ++ "-01",
            strftimeYmd env.today⟩
    else if anchor = "current_week" then
      some ⟨strftimeYmd (env.subDays env.today.weekday), strftimeYmd env.today⟩
    else none

/-- The keyword scan loop of `SelfQuery._extract_date_range`: first entry
whose keyword occurs in the lowered query and whose `range_info` produces a
range wins; everything after it is never consulted. -/
def scanKeywords (env : DateEnv) (ql : String) :
    List (String × RangeInfo) → Option DateRange
  | [] => none
  | (kw, info) :: rest =>
    if containsSub ql kw then
      match computeRange env info with
      | some dr => some dr
      | none => scanKeywords env ql rest
    else scanKeywords env ql rest

/-- `SelfQuery._extract_date_range`. -/
def extractDateRange (env : DateEnv) (query : String) : Option DateRange :=
  scanKeywords env (strToLower query) DATE_RANGE_KEYWORDS

/-- `SelfQuery.extract_metadata` with the date-range extraction step
abstracted as a fallible computation: the whole body sits in a
`try/except` that returns the unmodified query and `None` on any error. -/
def extractMetadataWith (ext : String → Except String (Option DateRange))
    (query : String) : Metadata :=
  match ext query with
  | .error _ => ⟨query, none⟩
  | .ok none => ⟨query, none⟩
  | .ok (some dr) =>
    ⟨query ++ " between " ++ dr.startDate ++ " and " ++ dr.endDate, some dr⟩

/-- `SelfQuery.extract_metadata` with the concrete extractor of the file. -/
def extractMetadata (env : DateEnv) (query : String) : Metadata :=
  extractMetadataWith (fun q => .ok (extractDateRange env q)) query

/-! ## VectorRetriever (src/core/rag/retriever.py) -/

/-- `VectorRetriever.COLLECTION_TYPES`. -/
def COLLECTION_TYPES : List String :=
  ["edgar_fillings",
   "earnings_call_transcripts",
   "financial_news",
   "investopedia",
   "macro_economic_reports"]

/-- `VectorRetriever._get_vector_collection_name`. -/
def getVectorCollectionName (dataType : String) : String :=
  "vector_" ++ dataType

/-- The external collaborators of the orchestrator, each fallible
(`Except.error` models a raised exception):
`encode` the embedding model, `search` the Qdrant client's
`search(collection_name, query_vector, query_filter, limit)`,
`extractMetadataOracle` the metadata extractor as the orchestrator sees it,
`generateQueriesOracle` the query expander, and `rerankModel` the reranking
model call `Reranker.generate_response(query, passages, keep_top_k)`. -/
structure Oracles where
  encode : String → Except String (List Int)
  search : String → List Int → Option QdrantFilter → Nat →
    Except String (List SearchHit)
  extractMetadataOracle : String → Except String Metadata
  generateQueriesOracle : String → Nat → Except String (List String)
  rerankModel : String → List String → Nat → Except String (List String)

/-- `VectorRetriever._construct_search_query`.  Python truthiness is kept:
an empty `collection_type` string and an empty filter dict contribute no
conditions, and an empty `must` list yields `None` instead of a filter. -/
def constructSearchQuery (collectionType : Option String)
    (additionalFilters : Option (List (String × String))) :
    Option QdrantFilter :=
  let typeConditions : List FieldCondition :=
    match collectionType with
    | some ct => if ct = "" then [] else [⟨"type", ct⟩]
    | none => []
  let filterConditions : List FieldCondition :=
    match additionalFilters with
    | some fs => fs.map (fun kv => ⟨kv.1, kv.2⟩)
    | none => []
  let mustConditions := typeConditions ++ filterConditions
  if mustConditions.isEmpty then none else some ⟨mustConditions⟩

/-- The per-collection limit `k // len(self.COLLECTION_TYPES)` passed to
every store search of `_search_single_query`. -/
def perCollectionLimit (k : Nat) : Nat :=
  k / COLLECTION_TYPES.length

/-- `VectorRetriever._search_single_query`: embed the query (its own
`try/except` returns `[]` on any error), then sweep the five collections,
skipping (`continue`) any collection whose search raises, and accumulating
hits in order. -/
def searchSingleQuery (o : Oracles) (generatedQuery : String)
    (collectionType : Option String)
    (additionalFilters : Option (List (String × String))) (k : Nat) :
    List SearchHit :=
  match o.encode generatedQuery with
  | .error _ => []
  | .ok queryVector =>
    let searchFilter := constructSearchQuery collectionType additionalFilters
    COLLECTION_TYPES.foldl
      (fun allResults dataType =>
        match o.search (getVectorCollectionName dataType) queryVector
            searchFilter (perCollectionLimit k) with
        | .ok results => allResults ++ results
        | .error _ => allResults)
      []

/-- The orchestrator's mutable state: `self.query`. -/
structure RState where
  query : String
deriving DecidableEq, Repr

/-- The sort key direction of `hits.sort(key=lambda x: x.score, reverse=True)`:
descending by score. -/
def scoreDescLE (a b : SearchHit) : Bool :=
  decide (b.score ≤ a.score)

/-- `hits.sort(key=lambda x: x.score, reverse=True)`: Python's `list.sort`
is a stable sort, and the stable sort for a total preorder is unique, so
`List.mergeSort` embeds it. -/
def sortHits (l : List SearchHit) : List SearchHit :=
  l.mergeSort scoreDescLE

/-- The merge step of `retrieve_top_k` (lines 219-229): concatenate the
collected per-query hit lists, stable-sort descending by score, truncate to
`k`. -/
def mergeHits (hitLists : List (List SearchHit)) (k : Nat) : List SearchHit :=
  (sortHits hitLists.flatten).take k

/-- Completion-order collection of `as_completed`: the scheduler delivers the
per-query result lists in the order given by `perm` (indices into the
submitted task list). -/
def gatherCompleted (perm : List Nat) (results : List (List SearchHit)) :
    List (List SearchHit) :=
  perm.filterMap (fun i => results.get? i)

/-- The body of `VectorRetriever.retrieve_top_k` inside its `try`: an error
carries the state as mutated so far (the `self.query` assignment on line 188
persists even when a later step raises).  The embedder and store never
propagate errors here because `_search_single_query` absorbs them. -/
def retrieveTopKBody (o : Oracles) (st : RState) (k n : Nat)
    (collectionType : Option String)
    (additionalFilters : Option (List (String × String)))
    (perm : List Nat) :
    Except (String × RState) (List SearchHit × RState) :=
  match o.extractMetadataOracle st.query with
  | .error e => .error (e, st)
  | .ok md =>
    let st1 : RState := ⟨md.modifiedQuery⟩
    match o.generateQueriesOracle st1.query n with
    | .error e => .error (e, st1)
    | .ok generatedQueries =>
      let results := generatedQueries.map
        (fun q => searchSingleQuery o q collectionType additionalFilters k)
      .ok (mergeHits (gatherCompleted perm results) k, st1)

/-- `VectorRetriever.retrieve_top_k`: the body wrapped in the top-level
`try/except` that logs and returns `[]`. -/
def retrieveTopK (o : Oracles) (st : RState) (k n : Nat)
    (collectionType : Option String)
    (additionalFilters : Option (List (String × String)))
    (perm : List Nat) : List SearchHit × RState :=
  match retrieveTopKBody o st k n collectionType additionalFilters perm with
  | .ok r => r
  | .error (_, stErr) => ([], stErr)

/-- The default of `retrieve_top_k`'s `k` parameter. -/
def retrieveTopKDefaultK : Nat := 3

/-- `hit.payload["content"]`: dictionary access that raises `KeyError` when
the key is absent. -/
def payloadContent (payload : List (String × String)) : Except String String :=
  match payload.lookup "content" with
  | some c => .ok c
  | none => .error "KeyError: content"

/-- The list comprehension `[hit.payload["content"] for hit in hits]` of
`rerank`: raises at the first hit whose payload lacks `content`. -/
def contentList : List SearchHit → Except String (List String)
  | [] => .ok []
  | h :: t =>
    match payloadContent h.payload with
    | .error e => .error e
    | .ok c =>
      match contentList t with
      | .error e => .error e
      | .ok rest => .ok (c :: rest)

/-- The body of `VectorRetriever.rerank` inside its `try`: note the payload
access happens inside the `try`. -/
def rerankBody (o : Oracles) (st : RState) (hits : List SearchHit)
    (keepTopK : Nat) : Except String (List String) :=
  match contentList hits with
  | .error e => .error e
  | .ok contents => o.rerankModel st.query contents keepTopK

/-- `VectorRetriever.rerank`: the body wrapped in the top-level `try/except`
that logs and returns `[]`. -/
def rerank (o : Oracles) (st : RState) (hits : List SearchHit)
    (keepTopK : Nat) : List String :=
  match rerankBody o st hits keepTopK with
  | .ok r => r
  | .error _ => []

/-- The default of `rerank`'s `keep_top_k` parameter (line 248 of
retriever.py). -/
def rerankDefaultKeepTopK : Nat := 5

/-- A call of `rerank` without an explicit `keep_top_k` argument. -/
def rerankDefault (o : Oracles) (st : RState) (hits : List SearchHit) :
    List String :=
  rerank o st hits rerankDefaultKeepTopK

/-- `VectorRetriever.set_query`: replaces the stored query (the embedder
invalidation is a resource concern outside the state modelled here). -/
def setQuery (query : String) : RState :=
  ⟨query⟩

/-! ## QueryExpansion (src/core/rag/query_expanison.py) -/

/-- The character set of Python's default `str.strip()`. -/
def pyWhitespace : List Char :=
  [' ', '\t', '\n', '\r', '\x0b', '\x0c']

/-- The character set of the literal `" \\n"` in
`item.strip(" \\n")`: a space, a backslash and the letter `n` — not a
newline. -/
def expansionStripSet : List Char :=
  [' ', '\\', 'n']

/-- Python's `str.strip(chars)`: remove characters of the set from both
ends. -/
def stripChars (cs : List Char) (s : String) : String :=
  ⟨((s.data.dropWhile (fun c => cs.contains c)).reverse.dropWhile
      (fun c => cs.contains c)).reverse⟩

/-- Left-to-right scan of Python's `str.split(sep)` for a non-empty `sep`:
`cur` is the reversed current piece, `fuel` a structural-termination budget
kept at least one above the remaining length, so the `0` branch is never
reached. -/
def pySplitAux (sep : List Char) : Nat → List Char → List Char →
    List (List Char)
  | 0, l, cur => [cur.reverse ++ l]
  | _ + 1, [], cur => [cur.reverse]
  | fuel + 1, c :: rest, cur =>
    if sep.isPrefixOf (c :: rest) then
      cur.reverse :: pySplitAux sep fuel ((c :: rest).drop sep.length) []
    else
      pySplitAux sep fuel rest (c :: cur)

/-- Python's `str.split(sep)` with a non-empty separator: split on every
occurrence, keeping empty pieces.  (Python raises on an empty separator; the
template's separator token is non-empty, so that case is out of scope and
mapped to the whole string.) -/
def pySplit (sep : String) (s : String) : List String :=
  if sep.data.isEmpty then [s]
  else (pySplitAux sep.data (s.data.length + 1) s.data []).map
    (fun cs => ⟨cs⟩)

/-- The post-processing of `QueryExpansion.generate_response` applied to the
model's response text: `response.strip().split(separator)`, then keep
`item.strip(" \\n")` for the items where that strip is non-empty.  The
separator is the template's token (`prompt_templates.py` is not in the
sources; the separator is passed as a parameter).  `to_expand_to_n` only
parameterizes the prompt, not this post-processing. -/
def generateResponse (sep : String) (response : String) (toExpandToN : Nat) :
    List String :=
  let queries := pySplit sep (stripChars pyWhitespace response)
  (queries.map (stripChars expansionStripSet)).filter (fun s => s ≠ "")

/-! ## Concrete test environments used by witnesses and counterexamples -/

/-- A well-behaved oracle set: every collaborator succeeds. -/
def oTest : Oracles where
  encode := fun _ => .ok [1]
  search := fun _ _ _ _ => .ok []
  extractMetadataOracle := fun q => .ok ⟨q, none⟩
  generateQueriesOracle := fun q _ => .ok [q]
  rerankModel := fun _ passages _ => .ok passages

/-- An oracle set whose metadata extractor raises. -/
def oFailExtract : Oracles where
  encode := fun _ => .ok [1]
  search := fun _ _ _ _ => .ok []
  extractMetadataOracle := fun _ => .error "boom"
  generateQueriesOracle := fun q _ => .ok [q]
  rerankModel := fun _ passages _ => .ok passages

/-- A concrete date environment (a fixed "now" and a fixed lookback date). -/
def envC10 : DateEnv :=
  ⟨⟨2026, 10, 12, 0⟩, fun _ => ⟨2026, 10, 5, 0⟩⟩

/-- Oracles wired to the repository's real metadata extractor at `envC10`,
with a trivially succeeding expander, embedder and store. -/
def oC10 : Oracles where
  encode := fun _ => .ok [1]
  search := fun _ _ _ _ => .ok []
  extractMetadataOracle := fun q => .ok (extractMetadata envC10 q)
  generateQueriesOracle := fun q _ => .ok [q]
  rerankModel := fun _ _ _ => .ok []

/-! ## Helper lemmas -/

/-- The keyword scan returns nothing when no keyword occurs in the query. -/
theorem scanKeywords_eq_none (env : DateEnv) (ql : String) :
    ∀ (L : List (String × RangeInfo)),
      L.all (fun p => !containsSub ql p.1) = true →
      scanKeywords env ql L = none
  | [], _ => rfl
  | (kw, info) :: rest, h => by
    have h' := List.all_eq_true.mp h
    have hkw : containsSub ql kw = false := by
      have := h' (kw, info) (List.mem_cons_self _ _)
      simpa using this
    have hrest : rest.all (fun p => !containsSub ql p.1) = true :=
      List.all_eq_true.mpr (fun p hp => h' p (List.mem_cons_of_mem _ hp))
    simp [scanKeywords, hkw, scanKeywords_eq_none env ql rest hrest]

/-- The content-gathering comprehension of `rerank` raises as soon as some
hit's payload lacks the `content` key. -/
theorem contentList_error_of_missing :
    ∀ (hits : List SearchHit),
      (∃ hit ∈ hits, hit.payload.lookup "content" = none) →
      ∃ e, contentList hits = Except.error e
  | [], h => absurd h (by simp)
  | hd :: tl, h => by
    rcases h with ⟨hit, hmem, hnone⟩
    rcases List.mem_cons.mp hmem with heq | htl
    · refine ⟨"KeyError: content", ?_⟩
      simp [contentList, payloadContent, heq ▸ hnone]
    · cases hhd : payloadContent hd.payload with
      | error e => exact ⟨e, by simp [contentList, hhd]⟩
      | ok c =>
        obtain ⟨e, he⟩ := contentList_error_of_missing tl ⟨hit, htl, hnone⟩
        exact ⟨e, by simp [contentList, hhd, he]⟩

/-! ## Claims -/

/-- C1: for every behaviour of the collaborators (including any of them
raising), `retrieve_top_k` either completes with the body's result, or the
body's exception is caught at the top level and the call returns the empty
result list — it never propagates an exception. -/
theorem C1_retrieve_top_k_catches_all (o : Oracles) (st : RState) (k n : Nat)
    (ct : Option String) (af : Option (List (String × String)))
    (perm : List Nat) :
    (∃ res, retrieveTopKBody o st k n ct af perm = .ok res ∧
      retrieveTopK o st k n ct af perm = res) ∨
    (∃ e stErr, retrieveTopKBody o st k n ct af perm = .error (e, stErr) ∧
      retrieveTopK o st k n ct af perm = ([], stErr)) := by
  cases h : retrieveTopKBody o st k n ct af perm with
  | ok r => exact .inl ⟨r, rfl, by simp [retrieveTopK, h]⟩
  | error p =>
    exact .inr ⟨p.1, p.2, by simp [h], by simp [retrieveTopK, h]⟩

/-- C4 counterexample: the default of `rerank`'s `keep_top_k` parameter is
not 3. -/
theorem C4_counterexample : rerankDefaultKeepTopK ≠ 3 := by
  decide

/-- C4 (amended): when `rerank` is called without an explicit `keep_top_k`
argument, the default value of `keep_top_k` is 5. -/
theorem C4_default_keep_top_k (o : Oracles) (st : RState)
    (hits : List SearchHit) :
    rerankDefaultKeepTopK = 5 ∧ rerankDefault o st hits = rerank o st hits 5 :=
  ⟨rfl, rfl⟩

/-- C5 counterexample: with a perfectly healthy reranking model, a hit whose
payload lacks a `content` field makes the body raise a `KeyError`, but
`rerank` catches it at its top level and returns the empty list — the
violation does not surface to the caller. -/
theorem C5_counterexample :
    rerankBody oTest ⟨"q"⟩ [⟨1, [("title", "t")]⟩] 3 =
      Except.error "KeyError: content" ∧
    rerank oTest ⟨"q"⟩ [⟨1, [("title", "t")]⟩] 3 = [] :=
  ⟨rfl, rfl⟩

/-- C5 (amended): a hit payload lacking a `content` string field is caught by
`rerank`'s own top-level handler and converted to an empty result — exactly
like a model-oracle failure, not surfaced to the immediate caller. -/
theorem C5_missing_content_swallowed (o : Oracles) (st : RState)
    (hits : List SearchHit) (keepTopK : Nat)
    (h : ∃ hit ∈ hits, hit.payload.lookup "content" = none) :
    rerank o st hits keepTopK = [] := by
  obtain ⟨e, he⟩ := contentList_error_of_missing hits h
  simp [rerank, rerankBody, he]

/-- C5 witness: the amended statement at a concrete input. -/
theorem C5_witness :
    (∃ hit ∈ ([⟨1, [("title", "t")]⟩] : List SearchHit),
      hit.payload.lookup "content" = none) ∧
    rerank oTest ⟨"q"⟩ [⟨1, [("title", "t")]⟩] 3 = [] :=
  ⟨⟨⟨1, [("title", "t")]⟩, by simp, rfl⟩,
   C5_missing_content_swallowed oTest ⟨"q"⟩ [⟨1, [("title", "t")]⟩] 3
     ⟨⟨1, [("title", "t")]⟩, by simp, rfl⟩⟩

/-- C7: `extract_metadata` is total at its boundary: when no table keyword
occurs in the query it returns the input unchanged with a null date range,
and when the internal extraction step raises, the exception is caught and the
unmodified query with a null date range is returned. -/
theorem C7_extract_metadata_total (env : DateEnv) (q : String)
    (hnone : DATE_RANGE_KEYWORDS.all
      (fun p => !containsSub (strToLower q) p.1) = true) :
    extractMetadata env q = ⟨q, none⟩ ∧
    (∀ (ext : String → Except String (Option DateRange)) (e : String),
      ext q = .error e → extractMetadataWith ext q = ⟨q, none⟩) := by
  constructor
  · have h := scanKeywords_eq_none env (strToLower q) DATE_RANGE_KEYWORDS hnone
    simp [extractMetadata, extractMetadataWith, extractDateRange, h]
  · intro ext e he
    simp [extractMetadataWith, he]

/-- C7 witness: the statement at a concrete query matching no keyword, and
the failure branch at a concrete raising extractor. -/
theorem C7_witness :
    (DATE_RANGE_KEYWORDS.all
      (fun p => !containsSub (strToLower "hello world") p.1) = true) ∧
    extractMetadata envC10 "hello world" = ⟨"hello world", none⟩ ∧
    extractMetadataWith (fun _ => .error "boom") "hello world" =
      ⟨"hello world", none⟩ :=
  ⟨by decide,
   (C7_extract_metadata_total envC10 "hello world" (by decide)).1,
   (C7_extract_metadata_total envC10 "hello world" (by decide)).2
     (fun _ => .error "boom") "boom" rfl⟩

/-- C9 counterexample: with the template separator modelled as `"#"`, the
model response `"a#b"` at `n = 1` yields two output elements, so the output
length is not bounded by `n`; and the response `"a#\n#b"` yields the element
`"\n"`, which is empty after trimming whitespace and newlines — so not every
returned element is non-empty after such trimming. -/
theorem C9_counterexample :
    ¬ ((generateResponse "#" "a#b" 1).length ≤ 1) ∧
    "\n" ∈ generateResponse "#" "a#\n#b" 2 ∧ stripChars pyWhitespace "\n" = "" := by
  decide

/-- C9 (amended): the output of `generate_response` is the list of
separator-split pieces of the whitespace-stripped response, each stripped of
space, backslash and letter-`n` characters at both ends (the literal
`" \\n"`, not a newline), with pieces empty after that strip dropped; every
returned element is a non-empty string (though it may consist of whitespace),
and the output length is bounded by the number of split pieces — not by
`n`. -/
theorem C9_generate_response_shape (sep response : String) (n : Nat)
    (s : String) (hs : s ∈ generateResponse sep response n) :
    s ≠ "" ∧
    (generateResponse sep response n).length ≤
      (pySplit sep (stripChars pyWhitespace response)).length ∧
    ∃ piece ∈ pySplit sep (stripChars pyWhitespace response),
      s = stripChars expansionStripSet piece := by
  unfold generateResponse at hs
  have h1 := List.mem_filter.mp hs
  obtain ⟨piece, hpmem, hpe⟩ := List.mem_map.mp h1.1
  refine ⟨by simpa using h1.2, ?_, piece, hpmem, hpe.symm⟩
  calc (generateResponse sep response n).length
      ≤ ((pySplit sep (stripChars pyWhitespace response)).map
          (stripChars expansionStripSet)).length := by
        unfold generateResponse
        exact List.length_filter_le _ _
    _ = (pySplit sep (stripChars pyWhitespace response)).length :=
        List.length_map _ _

/-- C9 witness: the amended statement at a concrete separator, response and
element. -/
theorem C9_witness :
    ("a" ∈ generateResponse "#" "a#b" 1) ∧
    ("a" ≠ "" ∧
     (generateResponse "#" "a#b" 1).length ≤
       (pySplit "#" (stripChars pyWhitespace "a#b")).length ∧
     ∃ piece ∈ pySplit "#" (stripChars pyWhitespace "a#b"),
       "a" = stripChars expansionStripSet piece) :=
  ⟨by decide, C9_generate_response_shape "#" "a#b" 1 "a" (by decide)⟩

/-- C10 counterexample: starting from the query
`"market recap last week"`, after one completed `retrieve_top_k` call the
orchestrator's stored query is the date-rewritten form, and a second
`retrieve_top_k` starts from that rewritten form — appending the date clause
a second time — not from the query as given at construction. -/
theorem C10_counterexample :
    (retrieveTopK oC10 ⟨"market recap last week"⟩ 3 3 none none [0]).2.query ≠
      "market recap last week" ∧
    (retrieveTopK oC10 ⟨"market recap last week"⟩ 3 3 none none [0]).2.query =
      "market recap last week between 2026-10-05 and 2026-10-12" ∧
    (retrieveTopK oC10
        (retrieveTopK oC10 ⟨"market recap last week"⟩ 3 3 none none [0]).2
        3 3 none none [0]).2.query =
      "market recap last week between 2026-10-05 and 2026-10-12 between 2026-10-05 and 2026-10-12" := by
  refine ⟨?_, rfl, rfl⟩
  decide

/-- C10 (amended): the rewritten query form persists beyond the retrieval
request: whenever metadata extraction succeeds, `retrieve_top_k` leaves the
orchestrator's stored query equal to the rewritten `modified_query` (on both
the success and the caught-failure paths), so a subsequent call starts from
the previous call's rewritten form; only `set_query` resets the stored
query. -/
theorem C10_rewrite_persists (o : Oracles) (st : RState) (k n : Nat)
    (ct : Option String) (af : Option (List (String × String)))
    (perm : List Nat) (md : Metadata)
    (h : o.extractMetadataOracle st.query = .ok md) :
    (retrieveTopK o st k n ct af perm).2.query = md.modifiedQuery ∧
    ∀ q, (setQuery q).query = q := by
  refine ⟨?_, fun q => rfl⟩
  cases hg : o.generateQueriesOracle md.modifiedQuery n with
  | error e => simp [retrieveTopK, retrieveTopKBody, h, hg]
  | ok qs => simp [retrieveTopK, retrieveTopKBody, h, hg]

/-- C10 witness: the amended statement at a concrete orchestrator state and
oracle set. -/
theorem C10_witness :
    (oC10.extractMetadataOracle "market recap last week" =
      .ok (extractMetadata envC10 "market recap last week")) ∧
    (retrieveTopK oC10 ⟨"market recap last week"⟩ 3 3 none none [0]).2.query =
      (extractMetadata envC10 "market recap last week").modifiedQuery :=
  ⟨rfl,
   (C10_rewrite_persists oC10 ⟨"market recap last week"⟩ 3 3 none none [0]
     (extractMetadata envC10 "market recap last week") rfl).1⟩

/-- C3: for every `k` between 1 and 4 (the documented default
`k = 3` included), the per-collection limit `k // 5` is zero, so every
store query of the sweep requests zero hits, and — when no collection
errors occur and the store honours the limit — the single-query search
returns the empty list. -/
theorem C3_low_k_zero_hits (k : Nat) (h1 : 1 ≤ k) (h2 : k ≤ 4)
    (o : Oracles) (q : String) (ct : Option String)
    (af : Option (List (String × String)))
    (hstore : ∀ name v f, ∃ hs,
      o.search name v f (perCollectionLimit k) = .ok hs ∧
      hs.length ≤ perCollectionLimit k) :
    perCollectionLimit k = 0 ∧ searchSingleQuery o q ct af k = [] := by
  have hlim : perCollectionLimit k = 0 := by
    unfold perCollectionLimit COLLECTION_TYPES
    simp only [List.length_cons, List.length_nil]
    omega
  refine ⟨hlim, ?_⟩
  cases henc : o.encode q with
  | error e => simp [searchSingleQuery, henc]
  | ok v =>
    have hempty : ∀ name f,
        o.search name v f (perCollectionLimit k) = .ok [] := by
      intro name f
      obtain ⟨hs, heq, hlen⟩ := hstore name v f
      rw [hlim] at hlen
      rwa [List.eq_nil_of_length_eq_zero (Nat.le_zero.mp hlen)] at heq
    simp [searchSingleQuery, henc, COLLECTION_TYPES, hempty]

/-- C3 witness: the statement at `k = 3` with a store that honours the
limit. -/
theorem C3_witness :
    (1 ≤ 3 ∧ 3 ≤ 4 ∧
      ∀ name v f, ∃ hs,
        oTest.search name v f (perCollectionLimit 3) = .ok hs ∧
        hs.length ≤ perCollectionLimit 3) ∧
    perCollectionLimit 3 = 0 ∧ searchSingleQuery oTest "q" none none 3 = [] :=
  ⟨⟨by decide, by decide, fun _ _ _ => ⟨[], rfl, Nat.zero_le _⟩⟩,
   C3_low_k_zero_hits 3 (by decide) (by decide) oTest "q" none none
     (fun _ _ _ => ⟨[], rfl, Nat.zero_le _⟩)⟩
-- appended to a copy of Spec2Proof.lean for testing

/-- Every entry of the concrete keyword table computes a date range (all
`start` anchors are among the four recognized values). -/
theorem computeRange_table_isSome (env : DateEnv) (p : String × RangeInfo)
    (hp : p ∈ DATE_RANGE_KEYWORDS) : (computeRange env p.2).isSome = true := by
  fin_cases hp <;> rfl

/-- First-match semantics of the keyword scan: if entry `i` matches, no
earlier entry matches, and entry `i` computes a range, the scan returns that
range regardless of anything after `i`. -/
theorem scanKeywords_first_all (env : DateEnv) (ql : String) :
    ∀ (L : List (String × RangeInfo)) (i : Nat) (hi : i < L.length),
      containsSub ql (L.get ⟨i, hi⟩).1 = true →
      (L.take i).all (fun p => !containsSub ql p.1) = true →
      (computeRange env (L.get ⟨i, hi⟩).2).isSome = true →
      scanKeywords env ql L = computeRange env (L.get ⟨i, hi⟩).2
  | [], i, hi, _, _, _ => absurd hi (by simp)
  | (kw, info) :: rest, 0, hi, hm, _, hsome => by
    simp only [List.get] at hm hsome ⊢
    cases hc : computeRange env info with
    | none => rw [hc] at hsome; simp at hsome
    | some dr => simp [scanKeywords, hm, hc]
  | (kw, info) :: rest, i + 1, hi, hm, hbefore, hsome => by
    simp only [List.take_succ_cons, List.all_cons, Bool.and_eq_true,
      Bool.not_eq_true'] at hbefore
    have ih := scanKeywords_first_all env ql rest i
      (Nat.lt_of_succ_lt_succ hi) hm hbefore.2 hsome
    simp [scanKeywords, hbefore.1, ih]

/-- C6: when a query contains keyword phrases of the date-range table, the
returned date range is the one computed from the first matching phrase in the
table's fixed iteration order (here: entry `i` matches and no entry before
`i` matches); every later match is ignored, since the result does not depend
on any entry after `i`. -/
theorem C6_first_match_wins (env : DateEnv) (q : String) (i : Nat)
    (hi : i < DATE_RANGE_KEYWORDS.length)
    (hmatch : containsSub (strToLower q)
      (DATE_RANGE_KEYWORDS.get ⟨i, hi⟩).1 = true)
    (hbefore : (DATE_RANGE_KEYWORDS.take i).all
      (fun p => !containsSub (strToLower q) p.1) = true) :
    extractDateRange env q =
      computeRange env (DATE_RANGE_KEYWORDS.get ⟨i, hi⟩).2 ∧
    (extractDateRange env q).isSome = true := by
  have hsome := computeRange_table_isSome env (DATE_RANGE_KEYWORDS.get ⟨i, hi⟩)
    (DATE_RANGE_KEYWORDS.get_mem i hi)
  have h := scanKeywords_first_all env (strToLower q) DATE_RANGE_KEYWORDS i hi
    hmatch hbefore hsome
  unfold extractDateRange
  exact ⟨h, h ▸ hsome⟩

/-- C6 witness: the query `"show me last week and ytd data"` contains both
`"last week"` (table index 5) and `"ytd"` (table index 20); the scan returns
the range of `"last week"`, the first match in table order. -/
theorem C6_witness :
    (containsSub (strToLower "show me last week and ytd data")
      (DATE_RANGE_KEYWORDS.get ⟨5, by decide⟩).1 = true) ∧
    ((DATE_RANGE_KEYWORDS.take 5).all
      (fun p => !containsSub (strToLower "show me last week and ytd data") p.1)
      = true) ∧
    containsSub (strToLower "show me last week and ytd data")
      (DATE_RANGE_KEYWORDS.get ⟨20, by decide⟩).1 = true ∧
    extractDateRange envC10 "show me last week and ytd data" =
      computeRange envC10 (DATE_RANGE_KEYWORDS.get ⟨5, by decide⟩).2 :=
  ⟨by decide, by decide, by decide,
   (C6_first_match_wins envC10 "show me last week and ytd data" 5 (by decide)
     (by decide) (by decide)).1⟩

/-- The descending comparison is transitive. -/
theorem scoreDescLE_trans : ∀ (a b c : SearchHit),
    scoreDescLE a b → scoreDescLE b c → scoreDescLE a c := by
  intro a b c hab hbc
  simp only [scoreDescLE, decide_eq_true_eq] at hab hbc ⊢
  omega

/-- The descending comparison is total. -/
theorem scoreDescLE_total : ∀ (a b : SearchHit),
    scoreDescLE a b || scoreDescLE b a := by
  intro a b
  simp only [scoreDescLE, Bool.or_eq_true, decide_eq_true_eq]
  omega

/-- Stability of the embedded sort, phrased by score class: the hits of any
fixed score appear in the sorted list exactly in their input order. -/
theorem sortHits_stable_filter (l : List SearchHit) (s : Int) :
    (sortHits l).filter (fun h => h.score == s) =
      l.filter (fun h => h.score == s) := by
  have hpw : (l.filter (fun h => h.score == s)).Pairwise
      (fun a b => scoreDescLE a b = true) := by
    apply List.pairwise_of_forall_mem_list
    intro a ha b hb
    have ha2 := (List.mem_filter.mp ha).2
    have hb2 := (List.mem_filter.mp hb).2
    simp only [beq_iff_eq] at ha2 hb2
    simp [scoreDescLE, ha2, hb2]
  have hsub : (l.filter (fun h => h.score == s)).Sublist (sortHits l) :=
    List.sublist_mergeSort scoreDescLE_trans scoreDescLE_total hpw
      (List.filter_sublist l)
  have hsub2 := hsub.filter (fun h => h.score == s)
  rw [List.filter_filter] at hsub2
  simp only [Bool.and_self] at hsub2
  have hlen : (l.filter (fun h => h.score == s)).length =
      ((sortHits l).filter (fun h => h.score == s)).length :=
    (((List.mergeSort_perm l scoreDescLE).filter _).length_eq).symm
  exact (hsub2.eq_of_length hlen).symm

/-- C8: the merged result `retrieve_top_k` builds from the collected
per-query hit lists is the concatenation of all hits, stably sorted
descending by score, truncated to `min k total`: its length is
`min k total`, it is sorted non-increasingly by score, it is the length-`k`
initial segment of the sorted concatenation (`take k ++ drop k` recovers it),
the sorted concatenation is a permutation of the arrival concatenation, and
equal-score hits keep their relative arrival order (the sort fixes every
score class pointwise). -/
theorem C8_merge_sorted_stable_truncated (hitLists : List (List SearchHit))
    (k : Nat) :
    (mergeHits hitLists k).length = min k hitLists.flatten.length ∧
    (mergeHits hitLists k).Pairwise (fun a b => b.score ≤ a.score) ∧
    mergeHits hitLists k ++ (sortHits hitLists.flatten).drop k =
      sortHits hitLists.flatten ∧
    (sortHits hitLists.flatten).Perm hitLists.flatten ∧
    ∀ s : Int, (sortHits hitLists.flatten).filter (fun h => h.score == s) =
      hitLists.flatten.filter (fun h => h.score == s) := by
  refine ⟨?_, ?_, ?_, ?_, fun s => sortHits_stable_filter _ s⟩
  · simp [mergeHits, sortHits]
  · have hsorted : (sortHits hitLists.flatten).Pairwise
        (fun a b => scoreDescLE a b = true) :=
      List.sorted_mergeSort scoreDescLE_trans scoreDescLE_total _
    have htake := hsorted.sublist (List.take_sublist k _)
    exact htake.imp (by simp [scoreDescLE])
  · exact List.take_append_drop k _
  · exact List.mergeSort_perm _ _

/-- The collection sweep accumulator of `_search_single_query` as a flat
map: a failing collection contributes nothing, a succeeding one its hits,
in collection order. -/
theorem foldl_sweep_eq_flatMap (g : String → Except String (List SearchHit)) :
    ∀ (L : List String) (acc : List SearchHit),
      L.foldl (fun allResults dataType =>
        match g dataType with
        | .ok results => allResults ++ results
        | .error _ => allResults) acc =
      acc ++ L.flatMap (fun dataType =>
        match g dataType with
        | .ok results => results
        | .error _ => [])
  | [], acc => by simp
  | d :: rest, acc => by
    cases hg : g d with
    | ok results =>
      simp [hg, foldl_sweep_eq_flatMap g rest (acc ++ results)]
    | error e =>
      simp [hg, foldl_sweep_eq_flatMap g rest acc]

/-- `_search_single_query` with a succeeding embedder, written as a flat map
over the collection types. -/
theorem searchSingleQuery_eq_flatMap (o : Oracles) (q : String)
    (ct : Option String) (af : Option (List (String × String))) (k : Nat)
    (v : List Int) (henc : o.encode q = .ok v) :
    searchSingleQuery o q ct af k =
      COLLECTION_TYPES.flatMap (fun dataType =>
        match o.search (getVectorCollectionName dataType) v
            (constructSearchQuery ct af) (perCollectionLimit k) with
        | .ok results => results
        | .error _ => []) := by
  unfold searchSingleQuery
  rw [henc]
  exact (foldl_sweep_eq_flatMap _ COLLECTION_TYPES []).trans (by simp)

/-- When exactly the collections other than `failed` succeed, the sweep's
flat map is the concatenation of their hits, in order. -/
theorem flatMap_skip_failed (g : String → Except String (List SearchHit))
    (hs : String → List SearchHit) (failed : String) :
    ∀ L : List String,
      (∀ t ∈ L, t ≠ failed → g t = .ok (hs t)) →
      (∀ t ∈ L, t = failed → ∃ e, g t = .error e) →
      L.flatMap (fun t =>
        match g t with
        | .ok results => results
        | .error _ => []) =
      (L.filter (fun t => t ≠ failed)).flatMap hs
  | [], _, _ => rfl
  | d :: rest, hok, hfail => by
    have ihok : ∀ t ∈ rest, t ≠ failed → g t = .ok (hs t) :=
      fun t ht => hok t (List.mem_cons_of_mem d ht)
    have ihfail : ∀ t ∈ rest, t = failed → ∃ e, g t = .error e :=
      fun t ht => hfail t (List.mem_cons_of_mem d ht)
    have ih := flatMap_skip_failed g hs failed rest ihok ihfail
    by_cases hd : d = failed
    · subst hd
      obtain ⟨e, he⟩ := hfail d (List.mem_cons_self d rest) rfl
      simp [he, ih]
    · have hdok := hok d (List.mem_cons_self d rest) hd
      simp [hdok, hd, ih]

/-- Decidable equality of store outcomes, used to evaluate concrete
witnesses. -/
instance : DecidableEq (Except String (List SearchHit)) := fun a b =>
  match a, b with
  | .ok x, .ok y => decidable_of_iff (x = y) (by simp)
  | .error x, .error y => decidable_of_iff (x = y) (by simp)
  | .ok _, .error _ => isFalse (by simp)
  | .error _, .ok _ => isFalse (by simp)

/-- Store oracle for the C2 witness: the `financial_news` collection is
down, the other four return one hit each. -/
def oC2 : Oracles where
  encode := fun _ => .ok [1]
  search := fun name _ _ _ =>
    if name = "vector_financial_news" then .error "connection refused"
    else if name = "vector_edgar_fillings" then .ok [⟨10, []⟩]
    else if name = "vector_earnings_call_transcripts" then .ok [⟨9, []⟩]
    else if name = "vector_investopedia" then .ok [⟨8, []⟩]
    else .ok [⟨7, []⟩]
  extractMetadataOracle := fun q => .ok ⟨q, none⟩
  generateQueriesOracle := fun q _ => .ok [q]
  rerankModel := fun _ passages _ => .ok passages

/-- The per-collection hits of the four healthy collections of `oC2`. -/
def hsC2 (t : String) : List SearchHit :=
  if t = "edgar_fillings" then [⟨10, []⟩]
  else if t = "earnings_call_transcripts" then [⟨9, []⟩]
  else if t = "investopedia" then [⟨8, []⟩]
  else [⟨7, []⟩]

/-- C2: in a single-query search over the five configured collections, if
the store raises for one collection (`failedType`) and succeeds for every
other, the search returns exactly the concatenated hits of the successful
collections, in collection order — the per-collection failure is caught and
does not abort the sweep. -/
theorem C2_partial_failure_containment (o : Oracles) (q : String)
    (ct : Option String) (af : Option (List (String × String))) (k : Nat)
    (v : List Int) (failedType : String) (hs : String → List SearchHit)
    (e : String) (henc : o.encode q = .ok v)
    (hfail : o.search (getVectorCollectionName failedType) v
      (constructSearchQuery ct af) (perCollectionLimit k) = .error e)
    (hok : ∀ t ∈ COLLECTION_TYPES, t ≠ failedType →
      o.search (getVectorCollectionName t) v (constructSearchQuery ct af)
        (perCollectionLimit k) = .ok (hs t)) :
    searchSingleQuery o q ct af k =
      (COLLECTION_TYPES.filter (fun t => t ≠ failedType)).flatMap hs := by
  rw [searchSingleQuery_eq_flatMap o q ct af k v henc]
  exact flatMap_skip_failed _ hs failedType COLLECTION_TYPES hok
    (fun t _ ht => ⟨e, ht ▸ hfail⟩)

/-- C2 witness: the statement at the concrete store `oC2`, where
`financial_news` is the one failing collection of the five; the result is
the four healthy collections' hits concatenated in collection order. -/
theorem C2_witness :
    (oC2.encode "q" = .ok [1]) ∧
    (oC2.search (getVectorCollectionName "financial_news") [1]
      (constructSearchQuery none none) (perCollectionLimit 10) =
      .error "connection refused") ∧
    (∀ t ∈ COLLECTION_TYPES, t ≠ "financial_news" →
      oC2.search (getVectorCollectionName t) [1]
        (constructSearchQuery none none) (perCollectionLimit 10) =
        .ok (hsC2 t)) ∧
    searchSingleQuery oC2 "q" none none 10 =
      (COLLECTION_TYPES.filter (fun t => t ≠ "financial_news")).flatMap hsC2 :=
  ⟨rfl, rfl, by decide,
   C2_partial_failure_containment oC2 "q" none none 10 [1] "financial_news"
     hsC2 "connection refused" rfl rfl (by decide)⟩
